import Mathlib

/-!
# GreenDrop — order-lifecycle orchestration and driver-matching core

Shallow embedding of the event-driven core of the GreenDrop delivery
marketplace: the Firestore trigger handlers (`onOrderCreated`,
`onOrderStatusChange`, `onUserWriteSyncDriver`), the scheduled health
monitor (`healthCheck`) and metrics aggregator (`pushMetrics`), and the
driver-matching service.

Each handler is translated as a pure function from the event payload (the
before/after document snapshots, plus the clock values the source reads
from the environment) to the list of store writes it batches, so that
statements about "which writes happen" become statements about the
returned list.  Server-side timestamp placeholders (`serverTimestamp()`)
carry no information and are omitted from the write payloads.
-/

namespace GreenDrop

/-! ## JavaScript value helpers

The handlers use JS truthiness on optional string fields (`x || y`,
`if (x) ...`): `undefined`, `null` and the empty string are all falsy.
Optional string fields are modelled as `Option String` with `""` falsy. -/

/-- JS truthiness of an optional string: `none` and `some ""` are falsy. -/
def truthy : Option String → Bool
  | none => false
  | some s => !(s == "")

/-- JS `a || b` on an optional string with a string default. -/
def jsOr (a : Option String) (b : String) : String :=
  match a with
  | none => b
  | some s => if s == "" then b else s

/-- JS `a || null`: normalizes a falsy optional string to `none`. -/
def jsOrNull (a : Option String) : Option String :=
  if truthy a then a else none

/-- JS `Math.round((num / den) * 100)` for naturals with `den > 0`:
round-half-up of `100 * num / den`. -/
def jsRoundPct (num den : Nat) : Nat :=
  (200 * num + den) / (2 * den)

/-- JS `orderId.slice(-6).toUpperCase()` — the short order reference used
in notification messages. -/
def shortRef (s : String) : String :=
  (s.drop (s.length - 6)).toUpper

/-! ## Order-lifecycle data model (`orders/{orderId}` snapshots) -/

/-- One entry of an order's `timeline` array. -/
structure TimelineEvent where
  id : String
  type : String
  title : String
  description : String
  timestamp : Int
  actor : String
deriving DecidableEq, Repr

/-- The fields of an order document snapshot that the lifecycle triggers
read.  Optional fields model JS properties that may be `undefined`. -/
structure OrderSnap where
  status : String
  userId : String
  userName : Option String
  driverId : Option String
  total : Option Int
  items : Option (List String)
  timeline : Option (List TimelineEvent)
  pickupLat : ℚ
  pickupLng : ℚ
deriving DecidableEq, Repr

/-- Metadata object of an activity-log entry (shape differs between the
creation and the status-change entries). -/
inductive ActivityMeta where
  | created (total : Option Int) (itemCount : Nat) (status : String)
  | updated (oldStatus newStatus : String) (driverId : Option String)
deriving DecidableEq, Repr

/-- An `activityLogs` document as written by the triggers. -/
structure ActivityEntry where
  entityType : String
  entityId : String
  type : String
  message : String
  userId : String
  metadata : ActivityMeta
deriving DecidableEq, Repr

/-- A `notifications` document.  Admin notifications use `target`,
user/driver notifications use `userId` and `orderId`. -/
structure Notif where
  target : Option String
  userId : Option String
  type : String
  category : Option String
  title : String
  message : String
  orderId : Option String
  read : Bool
deriving DecidableEq, Repr

/-- One write of a trigger's batch, plus a `matchCall` effect standing for
an invocation of `DriverMatcher.autoAssignDriver` (the output alphabet
includes it so that its absence from a handler's output is statable). -/
inductive Eff where
  | activity (e : ActivityEntry)
  | orderUpdate (orderId : String) (timeline : List TimelineEvent)
  | notif (n : Notif)
  | driverPatch (driverId : String) (isAvailable : Bool)
      (currentOrderId : Option String) (status : String)
  | matchCall (orderId : String) (pickupLat pickupLng : ℚ)
deriving DecidableEq, Repr

/-- JS `order.items?.length || 0`. -/
def itemCount (o : OrderSnap) : Nat :=
  match o.items with
  | none => 0
  | some l => l.length

/-- JS `!order.timeline || order.timeline.length === 0`. -/
def timelineMissing (o : OrderSnap) : Bool :=
  match o.timeline with
  | none => true
  | some l => l.isEmpty

/-! ## `onOrderCreated` (triggers/order-created.ts)

Batches, in order: one activity-log entry, a timeline initialization when
the order has no timeline, and one admin notification.  `now` models the
`Date.now()` value the handler reads when building the timeline event. -/

def onOrderCreated (orderId : String) (order : OrderSnap) (now : Int) : List Eff :=
  [Eff.activity
    { entityType := "order"
      entityId := orderId
      type := "order_created"
      message := "New order created by user " ++ jsOr order.userName order.userId
      userId := order.userId
      metadata := ActivityMeta.created order.total (itemCount order) order.status }]
  ++ (if timelineMissing order then
        [Eff.orderUpdate orderId
          [{ id := "event_" ++ toString now
             type := "status"
             title := "Order created"
             description := "Order has been successfully placed"
             timestamp := now
             actor := "system" }]]
      else [])
  ++ [Eff.notif
    { target := some "admin"
      userId := none
      type := "info"
      category := some "order"
      title := "Nouvelle commande"
      message := "Commande #" ++ shortRef orderId ++ " — " ++ toString (itemCount order)
        ++ " article(s), " ++ toString (order.total.getD 0) ++ " MAD"
      orderId := none
      read := false }]

/-! ## `onOrderStatusChange` (triggers/order-status-change.ts)

Returns `[]` (no writes) when the status did not change; otherwise batches
the activity log, the customer notification, the conditional admin
notifications, the driver release on terminal statuses, and the
driver-assignment notification on `shipped` with a newly present driver. -/

def onOrderStatusChange (orderId : String) (before after : OrderSnap) : List Eff :=
  if before.status == after.status then []
  else
    [Eff.activity
      { entityType := "order"
        entityId := orderId
        type := "order_updated"
        message := "Order status changed from \"" ++ before.status ++ "\" to \""
          ++ after.status ++ "\""
        userId := after.userId
        metadata := ActivityMeta.updated before.status after.status (jsOrNull after.driverId) },
     Eff.notif
      { target := none
        userId := some after.userId
        type := "order_update"
        category := none
        title := "Order " ++ after.status
        message := "Your order #" ++ shortRef orderId ++ " is now " ++ after.status
        orderId := some orderId
        read := false }]
    ++ (if after.status == "cancelled" then
          [Eff.notif
            { target := some "admin"
              userId := none
              type := "warning"
              category := some "order"
              title := "Commande annulée"
              message := "Commande #" ++ shortRef orderId ++ " annulée par "
                ++ jsOr after.userName after.userId
              orderId := none
              read := false }]
        else [])
    ++ (if after.status == "delivered" then
          [Eff.notif
            { target := some "admin"
              userId := none
              type := "success"
              category := some "order"
              title := "Commande livrée"
              message := "Commande #" ++ shortRef orderId ++ " livrée avec succès"
              orderId := none
              read := false }]
        else [])
    ++ (if (after.status == "delivered" || after.status == "cancelled")
           && truthy after.driverId then
          [Eff.driverPatch (after.driverId.getD "") true none "online",
           Eff.notif
            { target := none
              userId := some (after.driverId.getD "")
              type := "delivery_update"
              category := none
              title := "Delivery Completed"
              message := "Order #" ++ shortRef orderId ++ " has been " ++ after.status
              orderId := some orderId
              read := false }]
        else [])
    ++ (if after.status == "shipped" && truthy after.driverId
           && !truthy before.driverId then
          [Eff.notif
            { target := none
              userId := some (after.driverId.getD "")
              type := "delivery_assignment"
              category := none
              title := "New Delivery Assignment"
              message := "You have been assigned order #" ++ shortRef orderId
              orderId := some orderId
              read := false }]
        else [])

/-! ### Effect classifiers -/

/-- Is the effect an `autoAssignDriver` invocation? -/
def isMatchCall : Eff → Bool
  | Eff.matchCall _ _ _ => true
  | _ => false

/-- Is the effect an activity-log write? -/
def isActivity : Eff → Bool
  | Eff.activity _ => true
  | _ => false

/-- Is the effect an admin-targeted notification write? -/
def isAdminNotif : Eff → Bool
  | Eff.notif n => n.target == some "admin"
  | _ => false

/-- Is the effect an order-document update (timeline initialization)? -/
def isOrderUpdate : Eff → Bool
  | Eff.orderUpdate _ _ => true
  | _ => false

/-- Is the effect a driver-record patch? -/
def isDriverPatch : Eff → Bool
  | Eff.driverPatch _ _ _ _ => true
  | _ => false

/-- Is the effect a completion notification addressed to driver `d`? -/
def isCompletionNotifFor (d : String) : Eff → Bool
  | Eff.notif n => n.type == "delivery_update" && n.userId == some d
  | _ => false

/-- Is the effect an assignment notification addressed to driver `d`? -/
def isAssignNotifFor (d : String) : Eff → Bool
  | Eff.notif n => n.type == "delivery_assignment" && n.userId == some d
  | _ => false

/-- Is the effect any driver-assignment notification? -/
def isAssignNotif : Eff → Bool
  | Eff.notif n => n.type == "delivery_assignment"
  | _ => false

/-! ## `onUserWriteSyncDriver` (triggers/sync-driver.ts)

Keyed by user id; reacts to a `users/{userId}` write given the before and
after snapshots and the driver document currently stored (if any).  The
handler performs at most one driver-collection write, modelled as a
`DriverAction`. -/

/-- The fields of a `users/{userId}` snapshot the sync handler reads. -/
structure UserSnap where
  role : Option String
  name : Option String
  email : Option String
  phone : Option String
deriving DecidableEq, Repr

/-- The stored driver profile fields the sync handler diffs against. -/
structure DriverDoc where
  name : String
  email : String
  phone : String
deriving DecidableEq, Repr

/-- The driver document created when a driver-role user has no record.
Server timestamps (`location.updatedAt`, `lastSeenAt`, `createdAt`) are
omitted. -/
structure NewDriverDoc where
  id : String
  driverId : String
  name : String
  email : String
  phone : String
  status : String
  vehicleType : String
  rating : ℚ
  completedDeliveries : Nat
  currentOrderId : Option String
  isAvailable : Bool
  locationLat : ℚ
  locationLng : ℚ
deriving DecidableEq, Repr

/-- The single driver-collection write `onUserWriteSyncDriver` performs. -/
inductive DriverAction where
  | noWrite
  | setOffline
  | create (d : NewDriverDoc)
  | patch (updates : List (String × String))
deriving DecidableEq, Repr

/-- The name/email/phone patch computed for an existing driver record:
each field is included only when the profile value is truthy and differs
from the stored value (`after.x && after.x !== driver.x`). -/
def profilePatch (u : UserSnap) (d : DriverDoc) : List (String × String) :=
  (if truthy u.name && !(u.name == some d.name) then [("name", u.name.getD "")] else [])
  ++ (if truthy u.email && !(u.email == some d.email) then [("email", u.email.getD "")] else [])
  ++ (if truthy u.phone && !(u.phone == some d.phone) then [("phone", u.phone.getD "")] else [])

def onUserWriteSyncDriver (userId : String) (before after : Option UserSnap)
    (existing : Option DriverDoc) : DriverAction :=
  match after with
  | none =>
    -- User deleted — mark driver offline when a record exists
    if (match before with | some b => b.role == some "driver" | none => false)
        && existing.isSome then
      DriverAction.setOffline
    else DriverAction.noWrite
  | some u =>
    let isDriver := u.role == some "driver"
    let wasDriver := (match before with | some b => b.role == some "driver" | none => false)
    if wasDriver && !isDriver then
      -- Role changed away from driver — set offline when a record exists
      if existing.isSome then DriverAction.setOffline else DriverAction.noWrite
    else if !isDriver then DriverAction.noWrite
    else
      match existing with
      | none =>
        DriverAction.create
          { id := userId
            driverId := userId
            name := u.name.getD ""
            email := u.email.getD ""
            phone := u.phone.getD ""
            status := "offline"
            vehicleType := "bike"
            rating := 5
            completedDeliveries := 0
            currentOrderId := none
            isAvailable := false
            locationLat := 0
            locationLng := 0 }
      | some d =>
        let updates := profilePatch u d
        if updates.isEmpty then DriverAction.noWrite else DriverAction.patch updates

/-! ## `healthCheck` (triggers/health-check.ts)

A run reads a full snapshot of the store, evaluates the eight threshold
rules into a list of alerts, suppresses the ones whose identifier appears
in the alert history within the last 30 minutes, and for the survivors
sends the webhook, writes admin notifications and history entries, and
pushes to admin devices.  Times are unix milliseconds; `currentHour` and
`todayStart` model `new Date().getHours()` and the local midnight the
source computes. -/

/-- An alert produced by a health-check rule. -/
structure Alert where
  id : String
  severity : String
  title : String
  message : String
  team : String
deriving DecidableEq, Repr

/-- An `alertHistory` document (used for deduplication). -/
structure HistEntry where
  alertId : String
  severity : String
  title : String
  message : String
  team : String
  sentAt : Int
deriving DecidableEq, Repr

/-- A `drivers` document as read by the scheduled jobs. -/
structure DriverStat where
  status : String
deriving DecidableEq, Repr

/-- An `orders` document as read by the scheduled jobs (`status` may be
missing, read as `order.status || "unknown"`; timestamps are unix ms). -/
structure OrderDoc where
  status : Option String
  createdAt : Int
  totalAmount : Option Int
  deliveredAt : Option Int
  estimatedDelivery : Option Int
  shippedAt : Option Int
  updatedAt : Option Int
deriving DecidableEq, Repr

/-- A `users` document as read by the scheduled jobs. -/
structure UserDoc where
  createdAt : Int
deriving DecidableEq, Repr

/-- The store snapshot and clock values one health-check run reads. -/
structure HSnap where
  drivers : List DriverStat
  openDisputes : Nat
  pendingVerifications : Nat
  orders : List OrderDoc
  users : List UserDoc
  now : Int
  currentHour : Nat
  todayStart : Int
deriving DecidableEq, Repr

/-- The delivered-order count of the orders scan
(`status === "delivered"` after the `|| "unknown"` default). -/
def deliveredCount (orders : List OrderDoc) : Nat :=
  (orders.filter (fun o => jsOr o.status "unknown" == "delivered")).length

/-- JS `order.deliveredAt && order.estimatedDelivery && delivered <= estimated`. -/
def onTimeOrder (o : OrderDoc) : Bool :=
  match o.deliveredAt, o.estimatedDelivery with
  | some dv, some ev => dv ≤ ev
  | _, _ => false

/-- The on-time delivered-order count of the orders scan. -/
def onTimeCount (orders : List OrderDoc) : Nat :=
  (orders.filter (fun o => jsOr o.status "unknown" == "delivered" && onTimeOrder o)).length

/-- Today's revenue: sum of `totalAmount || 0` over orders created today. -/
def todayRevenue (orders : List OrderDoc) (todayStart : Int) : Int :=
  ((orders.filter (fun o => todayStart ≤ o.createdAt)).map (fun o => o.totalAmount.getD 0)).sum

/-- Shipped orders stuck for more than two hours, using `shippedAt` with an
`updatedAt` fallback. -/
def staleShippedCount (orders : List OrderDoc) (now : Int) : Nat :=
  (orders.filter (fun o =>
    o.status == some "shipped" &&
    (match o.shippedAt.or o.updatedAt with
     | some t => t < now - 7200000
     | none => false))).length

/-- The eight threshold rules, evaluated in source order against one
snapshot. -/
def computeAlerts (s : HSnap) : List Alert :=
  let onlineDrivers := (s.drivers.filter (fun d => d.status == "online")).length
  let busyDrivers := (s.drivers.filter (fun d => d.status == "busy")).length
  let activeDrivers := onlineDrivers + busyDrivers
  let newUsersToday := (s.users.filter (fun u => s.todayStart ≤ u.createdAt)).length
  (if activeDrivers == 0 && decide (0 < s.drivers.length) then
    [{ id := "no-drivers-online", severity := "critical",
       title := "Aucun chauffeur en ligne",
       message := "0 chauffeurs actifs sur " ++ toString s.drivers.length
         ++ " total. Les commandes ne peuvent pas être livrées.",
       team := "operations" }]
   else [])
  ++ (if 0 < activeDrivers then
        (if 90 < jsRoundPct busyDrivers activeDrivers then
          [{ id := "driver-overload", severity := "warning",
             title := "Chauffeurs surchargés",
             message := "Utilisation à " ++ toString (jsRoundPct busyDrivers activeDrivers)
               ++ "% (" ++ toString busyDrivers ++ " busy / " ++ toString activeDrivers
               ++ " actifs). Risque de retards.",
             team := "operations" }]
         else [])
      else [])
  ++ (if 10 < s.openDisputes then
        [{ id := "high-disputes", severity := "critical",
           title := "Trop de litiges ouverts",
           message := toString s.openDisputes
             ++ " litiges ouverts nécessitent une attention immédiate.",
           team := "support" }]
      else [])
  ++ (if 20 < s.pendingVerifications then
        [{ id := "kyc-backlog", severity := "warning",
           title := "File d'attente KYC élevée",
           message := toString s.pendingVerifications
             ++ " vérifications en attente. Priorisez le traitement.",
           team := "compliance" }]
      else [])
  ++ (if 5 < deliveredCount s.orders then
        (if jsRoundPct (onTimeCount s.orders) (deliveredCount s.orders) < 80 then
          [{ id := "low-delivery-rate", severity := "warning",
             title := "Taux de livraison à temps bas",
             message := "Seulement "
               ++ toString (jsRoundPct (onTimeCount s.orders) (deliveredCount s.orders))
               ++ "% de livraisons à temps (seuil: 80%). Vérifiez les chauffeurs.",
             team := "operations" }]
         else [])
      else [])
  ++ (if 12 ≤ s.currentHour && todayRevenue s.orders s.todayStart == 0
         && decide (10 < s.orders.length) then
        [{ id := "zero-revenue", severity := "warning",
           title := "Aucun revenu aujourd'hui",
           message := "0€ de revenu après 12h. Vérifiez que le système de paiement fonctionne.",
           team := "business" }]
      else [])
  ++ (if 0 < staleShippedCount s.orders s.now then
        [{ id := "stale-deliveries", severity := "warning",
           title := "Livraisons bloquées",
           message := toString (staleShippedCount s.orders s.now)
             ++ " commande(s) en statut \"shipped\" depuis plus de 2h. Possible problème chauffeur.",
           team := "operations" }]
      else [])
  ++ (if 18 ≤ s.currentHour && newUsersToday == 0 && decide (20 < s.users.length) then
        [{ id := "no-signups", severity := "info",
           title := "Aucune inscription aujourd'hui",
           message := "0 nouvelles inscriptions après 18h. Vérifiez l'acquisition.",
           team := "growth" }]
      else [])

/-- The identifiers of the history records with `sentAt >= now - 30min`
(the dedup query plus the `Set` of `alertId`s built from it). -/
def recentAlertIds (now : Int) (hist : List HistEntry) : List String :=
  (hist.filter (fun e => now - 1800000 ≤ e.sentAt)).map (fun e => e.alertId)

/-- The alerts of one run that survive deduplication
(`alerts.filter(a => !recentAlertIds.has(a.id))`). -/
def newAlertsOf (s : HSnap) (hist : List HistEntry) : List Alert :=
  (computeAlerts s).filter (fun a => !(decide (a.id ∈ recentAlertIds s.now hist)))

/-- The `alertHistory` document recorded for an emitted alert. -/
def histEntryOf (now : Int) (a : Alert) : HistEntry :=
  { alertId := a.id, severity := a.severity, title := a.title,
    message := a.message, team := a.team, sentAt := now }

/-- One health-check run: the alerts actually emitted (sent to the
webhook, written as admin notifications, recorded in history and pushed),
paired with the alert history after the run.  Alerts whose identifier has
a history record with `sentAt >= now - 30min` are suppressed. -/
def healthCheckRun (s : HSnap) (hist : List HistEntry) : List Alert × List HistEntry :=
  let alerts := computeAlerts s
  if alerts.isEmpty then ([], hist)
  else
    let newAlerts := newAlertsOf s hist
    if newAlerts.isEmpty then ([], hist)
    else (newAlerts, hist ++ newAlerts.map (histEntryOf s.now))

/-! ### Exception-flow model of a `healthCheck` run

The handler's body is one `try` block; the `catch` logs the error and
returns `null`.  The outcomes of the fallible collaborators (store reads,
the batch commit, the Discord fetch, the admin-push query and send) are
injected as `Except` values; each helper's own try/catch is translated
explicitly.  A function result pairs the `Except` outcome (an `error`
would propagate to the dispatcher as a thrown exception) with the console
log lines produced. -/

/-- The collaborator outcomes one run may observe. -/
structure HCEnv where
  reads : Except String (HSnap × List HistEntry)
  webhookUrl : Option String
  webhookFetch : Except String Bool
  commit : Except String Unit
  adminTokensRead : Except String (List String)
  pushSend : Except String Unit

/-- The `sendDiscordAlerts` helper: skips when no webhook URL is configured; a thrown
fetch error is caught and logged, a non-2xx response is logged.  Never
rethrows. -/
def sendDiscordAlerts (webhookUrl : Option String) (fetchRes : Except String Bool) :
    Except String Unit × List String :=
  match webhookUrl with
  | none => (Except.ok (), ["[HealthCheck] No DISCORD_WEBHOOK_URL configured"])
  | some _ =>
    match fetchRes with
    | Except.error e => (Except.ok (), ["Discord webhook error: " ++ e])
    | Except.ok ok =>
      if ok then (Except.ok (), []) else (Except.ok (), ["Discord webhook failed"])

/-- The `sendAdminPush` helper: the whole body (admin-user query, token collection,
multicast send) sits in one try/catch that logs and swallows.  Never
rethrows. -/
def sendAdminPush (tokensRead : Except String (List String))
    (send : Except String Unit) : Except String Unit × List String :=
  match tokensRead with
  | Except.error e => (Except.ok (), ["Admin push notification error: " ++ e])
  | Except.ok tokens =>
    if tokens.isEmpty then (Except.ok (), [])
    else
      match send with
      | Except.error e => (Except.ok (), ["Admin push notification error: " ++ e])
      | Except.ok _ => (Except.ok (), [])

/-- The `try` body of `healthCheck`: reads, rule evaluation, dedup,
webhook, batch commit, push.  `Option Unit` models the JS return value,
always `null` (`none`) on normal completion. -/
def healthCheckBody (env : HCEnv) : Except String (Option Unit) × List String :=
  match env.reads with
  | Except.error e => (Except.error e, [])
  | Except.ok (s, hist) =>
    let alerts := computeAlerts s
    if alerts.isEmpty then (Except.ok none, ["[HealthCheck] All systems nominal"])
    else
      let newAlerts := (healthCheckRun s hist).1
      if newAlerts.isEmpty then
        (Except.ok none, ["[HealthCheck] Alerts already sent recently, skipping"])
      else
        let discord := sendDiscordAlerts env.webhookUrl env.webhookFetch
        match discord.1 with
        | Except.error e => (Except.error e, discord.2)
        | Except.ok _ =>
          match env.commit with
          | Except.error e => (Except.error e, discord.2)
          | Except.ok _ =>
            let push := sendAdminPush env.adminTokensRead env.pushSend
            match push.1 with
            | Except.error e => (Except.error e, discord.2 ++ push.2)
            | Except.ok _ =>
              (Except.ok none,
               discord.2 ++ push.2
                 ++ ["[HealthCheck] Sent " ++ toString newAlerts.length ++ " alerts"])

/-- The full handler: the body wrapped in the outer catch, which logs the
error and returns `null`. -/
def healthCheck (env : HCEnv) : Except String (Option Unit) × List String :=
  match healthCheckBody env with
  | (Except.error e, logs) => (Except.ok none, logs ++ ["[HealthCheck] Error: " ++ e])
  | (Except.ok v, logs) => (Except.ok v, logs)

/-! ## `pushMetrics` — orders section (triggers/push-metrics.ts)

The orders scan of the metrics aggregator: totals, today's subset,
revenue, per-status breakdown (a JS object with insertion-ordered keys),
and the on-time rate with its divide-by-zero guard.  All samples of one
run share `interval = 300` and the run's unix-second timestamp. -/

/-- A Graphite metric sample. -/
structure MetricSample where
  name : String
  value : Int
  interval : Nat
  time : Int
deriving DecidableEq, Repr

/-- Increment key `k` of a JS-object-style insertion-ordered counter map
(`ordersByStatus[status] = (ordersByStatus[status] || 0) + 1`). -/
def bumpCounter (m : List (String × Nat)) (k : String) : List (String × Nat) :=
  match m with
  | [] => [(k, 1)]
  | (k', v) :: rest =>
    if k' == k then (k', v + 1) :: rest else (k', v) :: bumpCounter rest k

/-- The per-status order counts, in key-insertion order. -/
def ordersByStatus (orders : List OrderDoc) : List (String × Nat) :=
  orders.foldl (fun m o => bumpCounter m (jsOr o.status "unknown")) []

/-- The `orders.on_time_rate` value: rounded percentage of on-time
delivered orders, or `100` when no order has been delivered (the division
is guarded by `deliveredCount > 0`). -/
def onTimeRate (orders : List OrderDoc) : Nat :=
  if 0 < deliveredCount orders then jsRoundPct (onTimeCount orders) (deliveredCount orders)
  else 100

/-- The metric samples of the orders section, in push order. -/
def ordersSectionMetrics (orders : List OrderDoc) (now : Int) (todayStart : Int) :
    List MetricSample :=
  let totalRevenue : Int := (orders.map (fun o => o.totalAmount.getD 0)).sum
  let todayOrders := (orders.filter (fun o => todayStart ≤ o.createdAt)).length
  [{ name := "greendrop.orders.total", value := orders.length, interval := 300, time := now },
   { name := "greendrop.orders.today", value := todayOrders, interval := 300, time := now },
   { name := "greendrop.orders.revenue.total", value := totalRevenue, interval := 300, time := now },
   { name := "greendrop.orders.revenue.today", value := todayRevenue orders todayStart,
     interval := 300, time := now }]
  ++ (ordersByStatus orders).map (fun p =>
       { name := "greendrop.orders.status." ++ p.1, value := (p.2 : Int),
         interval := 300, time := now })
  ++ [{ name := "greendrop.orders.on_time_rate", value := (onTimeRate orders : Int),
        interval := 300, time := now }]

/-! ## DriverMatcher (lib/firebase/services/driver-matching)

Modelled from the spec: the implementation file of `findBestDrivers` /
`autoAssignDriver` is not in the sources (only its test suite is);
the pipeline below follows spec §4.1–4.2 — load online drivers with a
location, compute the GeoScorer distance, discard beyond the 10 km radius
and drivers holding a `currentOrderId`, score, sort by descending score
(stable on ties), truncate to `maxResults`.  The great-circle distance
function is abstracted as a parameter `dist` (the spec defines it by the
haversine formula, a transcendental real-valued map; the filtering and
ranking are independent of its closed form). -/

/-- A `drivers` document as read by the matcher. -/
structure MatchDriver where
  id : String
  name : String
  phone : String
  status : String
  rating : Option ℚ
  completedDeliveries : Nat
  currentOrderId : Option String
  lastSeenAt : Int
  location : Option (ℚ × ℚ)
deriving DecidableEq, Repr

/-- An ephemeral match candidate: driver, distance (km), composite score. -/
structure MatchCandidate where
  driver : MatchDriver
  distance : ℚ
  score : ℚ
deriving DecidableEq, Repr

/-- Modelled from the spec: GeoScorer's composite score (§4.1) — weighted
sum of the distance (0.50), rating (0.20, default 3 when absent),
experience (0.15, saturating at 100 deliveries) and recency (0.15, 1 up
to 5 minutes, linear decay to 0 at 30 minutes) sub-scores.  Times are
unix milliseconds. -/
def scoreCandidate (distanceKm : ℚ) (rating : Option ℚ) (completed : Nat)
    (lastSeenAt now : Int) : ℚ :=
  let distScore := max 0 (1 - distanceKm / 10)
  let ratingScore := rating.getD 3 / 5
  let expScore := min 1 ((completed : ℚ) / 100)
  let ageMs : ℚ := ((now - lastSeenAt : Int) : ℚ)
  let recencyScore :=
    if ageMs ≤ 300000 then 1
    else if 1800000 ≤ ageMs then 0
    else (1800000 - ageMs) / 1500000
  (1 / 2) * distScore + (1 / 5) * ratingScore + (3 / 20) * expScore + (3 / 20) * recencyScore

/-- Insert a candidate in front of the first strictly-lower-scored
element: descending order, earlier input wins ties. -/
def insertByScore (c : MatchCandidate) : List MatchCandidate → List MatchCandidate
  | [] => [c]
  | x :: xs => if x.score ≤ c.score then c :: x :: xs else x :: insertByScore c xs

/-- Stable insertion sort by descending composite score. -/
def sortByScoreDesc : List MatchCandidate → List MatchCandidate
  | [] => []
  | c :: cs => insertByScore c (sortByScoreDesc cs)

/-- Modelled from the spec: `findBestDrivers` (§4.2) over an abstract
distance function `dist pickupLat pickupLng driverLat driverLng`. -/
def findBestDrivers (dist : ℚ → ℚ → ℚ → ℚ → ℚ) (pickupLat pickupLng : ℚ)
    (drivers : List MatchDriver) (now : Int) (maxResults : Nat) : List MatchCandidate :=
  let online := drivers.filter (fun d => d.status == "online")
  let candidates := online.filterMap (fun d =>
    match d.location with
    | none => none
    | some (lat, lng) =>
      let dk := dist pickupLat pickupLng lat lng
      if 10 < dk then none
      else if truthy d.currentOrderId then none
      else some
        { driver := d, distance := dk,
          score := scoreCandidate dk d.rating d.completedDeliveries d.lastSeenAt now })
  (sortByScoreDesc candidates).take maxResults

/-! ## Sample inputs used by witnesses and counterexamples -/

/-- A freshly created order with pickup coordinates and no timeline. -/
def orderC1 : OrderSnap :=
  { status := "created", userId := "u1", userName := some "Alice", driverId := none,
    total := some 50, items := some ["item1"], timeline := none,
    pickupLat := 48, pickupLng := 2 }

/-- A shipped order held by driver `d1`. -/
def beforeC2 : OrderSnap :=
  { status := "shipped", userId := "u2", userName := none, driverId := some "d1",
    total := some 80, items := none, timeline := none, pickupLat := 0, pickupLng := 0 }

/-- The same order after delivery. -/
def afterC2 : OrderSnap := { beforeC2 with status := "delivered" }

/-- A delivered (terminal) order snapshot. -/
def beforeC3 : OrderSnap :=
  { status := "delivered", userId := "u3", userName := none, driverId := none,
    total := none, items := none, timeline := none, pickupLat := 0, pickupLng := 0 }

/-- The terminal order after a (spec-forbidden) further transition. -/
def afterC3 : OrderSnap := { beforeC3 with status := "cancelled" }

/-- A confirmed order without a driver. -/
def beforeC5 : OrderSnap :=
  { status := "confirmed", userId := "u5", userName := none, driverId := none,
    total := some 30, items := none, timeline := none, pickupLat := 0, pickupLng := 0 }

/-- The order shipped with driver `d2` newly attached. -/
def afterC5 : OrderSnap := { beforeC5 with status := "shipped", driverId := some "d2" }

/-- The confirmed order with driver `d2` already attached. -/
def beforeC5b : OrderSnap := { beforeC5 with driverId := some "d2" }

/-! ## Claims -/

/-- C4: `onOrderStatusChange` performs no writes at all when
`before.status == after.status` (idempotent under event redelivery). -/
theorem statusChange_noop_on_equal_status (orderId : String) (before after : OrderSnap)
    (h : before.status = after.status) :
    onOrderStatusChange orderId before after = [] := by
  simp [onOrderStatusChange, h]

/-- Witness for C4 at a concrete redelivered event. -/
theorem statusChange_noop_on_equal_status_witness :
    onOrderStatusChange "order4" beforeC2 beforeC2 = [] :=
  statusChange_noop_on_equal_status "order4" beforeC2 beforeC2 rfl

/-- C1 (counterexample): at a concrete creation event, `onOrderCreated`
does not emit any `autoAssignDriver` invocation — in particular none at
the order's pickup coordinates, contrary to the claim. -/
theorem onOrderCreated_no_match_call_cex :
    Eff.matchCall "order1" orderC1.pickupLat orderC1.pickupLng ∉ onOrderCreated "order1" orderC1 0
    ∧ (onOrderCreated "order1" orderC1 0).filter isMatchCall = [] := by
  constructor <;> decide

/-- C1 (amended): on every order-creation event the handler batches
exactly one activity-log entry, exactly one admin notification, and a
timeline initialization exactly when the timeline is missing or empty —
and it never invokes driver matching. -/
theorem onOrderCreated_batch_shape (orderId : String) (order : OrderSnap) (now : Int) :
    (onOrderCreated orderId order now).filter isMatchCall = []
    ∧ ((onOrderCreated orderId order now).filter isActivity).length = 1
    ∧ ((onOrderCreated orderId order now).filter isAdminNotif).length = 1
    ∧ ((onOrderCreated orderId order now).filter isOrderUpdate).length
        = (if timelineMissing order then 1 else 0) := by
  by_cases h : timelineMissing order <;>
    simp [onOrderCreated, h, isMatchCall, isActivity, isAdminNotif, isOrderUpdate]

/-- C3 (counterexample): a concrete transition out of the terminal status
`delivered` is not rejected without side effects: the handler emits a
non-empty batch (it logs the change and notifies the customer). -/
theorem terminal_guard_missing_cex :
    onOrderStatusChange "order9" beforeC3 afterC3 ≠ []
    ∧ ((onOrderStatusChange "order9" beforeC3 afterC3).filter isActivity).length = 1 := by
  constructor <;> decide

/-- C3 (amended): `onOrderStatusChange` has no terminal-state guard — an
update whose `before.status` is `delivered` or `cancelled` and whose
status actually changed is processed like any other status change (the
activity-log entry is written, so side effects are applied). -/
theorem terminal_before_still_processed (orderId : String) (before after : OrderSnap)
    (hterm : before.status = "delivered" ∨ before.status = "cancelled")
    (hne : before.status ≠ after.status) :
    onOrderStatusChange orderId before after ≠ []
    ∧ ((onOrderStatusChange orderId before after).filter isActivity).length = 1 := by
  have hb : (before.status == after.status) = false := by
    simp [hne]
  constructor
  · simp [onOrderStatusChange, hb]
  · simp only [onOrderStatusChange, hb, if_false, Bool.false_eq_true]
    split_ifs <;> simp [isActivity]

/-- Witness for C3 (amended) at the concrete terminal transition. -/
theorem terminal_before_still_processed_witness :
    onOrderStatusChange "order9b" beforeC3 afterC3 ≠ []
    ∧ ((onOrderStatusChange "order9b" beforeC3 afterC3).filter isActivity).length = 1 :=
  terminal_before_still_processed "order9b" beforeC3 afterC3 (Or.inl rfl) (by decide)

/-- C2: on every status change into `delivered` or `cancelled` with a
driver attached in `after`, the batch contains exactly one driver-record
write — releasing that driver with `currentOrderId = null`,
`isAvailable = true`, `status = online` — and exactly one completion
notification addressed to that driver. -/
theorem terminal_transition_releases_driver (orderId : String) (before after : OrderSnap)
    (d : String)
    (hne : before.status ≠ after.status)
    (hterm : after.status = "delivered" ∨ after.status = "cancelled")
    (hd : after.driverId = some d) (hd0 : d ≠ "") :
    (onOrderStatusChange orderId before after).filter isDriverPatch
      = [Eff.driverPatch d true none "online"]
    ∧ ((onOrderStatusChange orderId before after).filter (isCompletionNotifFor d)).length = 1 := by
  have htd : truthy (some d) = true := by
    simp [truthy, hd0]
  rcases hterm with h | h <;>
    rw [h] at hne <;>
    simp [onOrderStatusChange, h, hne, hd, htd, isDriverPatch, isCompletionNotifFor]

/-- Witness for C2 at a concrete `shipped → delivered` event. -/
theorem terminal_transition_releases_driver_witness :
    (onOrderStatusChange "order77" beforeC2 afterC2).filter isDriverPatch
      = [Eff.driverPatch "d1" true none "online"]
    ∧ ((onOrderStatusChange "order77" beforeC2 afterC2).filter (isCompletionNotifFor "d1")).length
        = 1 :=
  terminal_transition_releases_driver "order77" beforeC2 afterC2 "d1" (by decide)
    (Or.inl rfl) rfl (by decide)

/-- C5: on a status change into `shipped`, the handler emits exactly one
driver-assignment notification to the newly attached driver when the
driver id is present in `after` and absent in `before`, and zero
assignment notifications when the driver id was already present in
`before`. -/
theorem shipped_new_driver_notification (orderId : String) (before after : OrderSnap)
    (d : String)
    (hne : before.status ≠ after.status) (hs : after.status = "shipped") :
    (after.driverId = some d → d ≠ "" → truthy before.driverId = false →
      ((onOrderStatusChange orderId before after).filter (isAssignNotifFor d)).length = 1)
    ∧ (truthy before.driverId = true →
      ((onOrderStatusChange orderId before after).filter isAssignNotif).length = 0) := by
  rw [hs] at hne
  constructor
  · intro hd hd0 hbf
    have htd : truthy (some d) = true := by
      simp [truthy, hd0]
    simp [onOrderStatusChange, hs, hne, hbf, hd, htd, isAssignNotifFor]
  · intro hbf
    by_cases htr : truthy after.driverId <;>
      simp [onOrderStatusChange, hs, hne, htr, hbf, isAssignNotif]

/-- Witness for C5: one assignment notification when `d2` is newly
attached, none when `d2` was already attached before the event. -/
theorem shipped_new_driver_notification_witness :
    ((onOrderStatusChange "order5" beforeC5 afterC5).filter (isAssignNotifFor "d2")).length = 1
    ∧ ((onOrderStatusChange "order5" beforeC5b afterC5).filter isAssignNotif).length = 0 :=
  ⟨(shipped_new_driver_notification "order5" beforeC5 afterC5 "d2" (by decide) rfl).1
      rfl (by decide) (by decide),
   (shipped_new_driver_notification "order5" beforeC5b afterC5 "d2" (by decide) rfl).2
      (by decide)⟩

/-- Soundness of one component of `profilePatch`: a pair can only appear
when the profile field is truthy and differs from the stored value. -/
lemma patch_component_sound (f : Option String) (stored key : String) (kv : String × String)
    (h : kv ∈ (if truthy f && !(f == some stored) then [(key, f.getD "")] else [])) :
    kv.1 = key ∧ f = some kv.2 ∧ kv.2 ≠ "" ∧ kv.2 ≠ stored := by
  by_cases hc : (truthy f && !(f == some stored)) = true
  · obtain ⟨ht, hdf⟩ : truthy f = true ∧ (!(f == some stored)) = true := by simpa using hc
    cases f with
    | none => simp [truthy] at ht
    | some v =>
      have hv : v ≠ "" := by simpa [truthy] using ht
      have hvd : v ≠ stored := by simpa using hdf
      simp only [hc, if_true, List.mem_singleton] at h
      subst h
      simp [hv, hvd]
  · simp [hc] at h

/-- C9: for a user keeping role `driver` with an existing driver record,
the sync handler's write is exactly the computed field diff — it is no
write at all when the diff is empty, and every patched pair is a
name/email/phone field whose profile value is non-empty and different
from the stored driver value. -/
theorem syncDriver_minimal_patch (userId : String) (before : Option UserSnap)
    (u : UserSnap) (d : DriverDoc)
    (hrole : u.role = some "driver") :
    (onUserWriteSyncDriver userId before (some u) (some d) = DriverAction.noWrite
        ↔ profilePatch u d = [])
    ∧ (∀ ups, onUserWriteSyncDriver userId before (some u) (some d) = DriverAction.patch ups →
        ∀ kv, kv ∈ ups →
          (kv.1 = "name" ∧ u.name = some kv.2 ∧ kv.2 ≠ "" ∧ kv.2 ≠ d.name)
          ∨ (kv.1 = "email" ∧ u.email = some kv.2 ∧ kv.2 ≠ "" ∧ kv.2 ≠ d.email)
          ∨ (kv.1 = "phone" ∧ u.phone = some kv.2 ∧ kv.2 ≠ "" ∧ kv.2 ≠ d.phone)) := by
  have hred : onUserWriteSyncDriver userId before (some u) (some d)
      = (if (profilePatch u d).isEmpty then DriverAction.noWrite
         else DriverAction.patch (profilePatch u d)) := by
    simp [onUserWriteSyncDriver, hrole]
  constructor
  · rw [hred]
    by_cases hp : (profilePatch u d).isEmpty <;>
      simp_all [List.isEmpty_iff]
  · intro ups hups kv hkv
    rw [hred] at hups
    by_cases hp : (profilePatch u d).isEmpty
    · simp [hp] at hups
    · simp only [hp, if_false, Bool.false_eq_true, DriverAction.patch.injEq] at hups
      subst hups
      unfold profilePatch at hkv
      rcases List.mem_append.mp hkv with h12 | h3
      · rcases List.mem_append.mp h12 with h1 | h2
        · exact Or.inl (patch_component_sound u.name d.name "name" kv h1)
        · exact Or.inr (Or.inl (patch_component_sound u.email d.email "email" kv h2))
      · exact Or.inr (Or.inr (patch_component_sound u.phone d.phone "phone" kv h3))

/-- A user profile before the C9 update (role driver). -/
def userBeforeC9 : UserSnap :=
  { role := some "driver", name := some "Old", email := some "e@x", phone := some "p" }

/-- The updated profile: new name, empty email, missing phone. -/
def userC9 : UserSnap :=
  { role := some "driver", name := some "New", email := some "", phone := none }

/-- The stored driver record the C9 update is diffed against. -/
def driverDocC9 : DriverDoc := { name := "Old", email := "e@x", phone := "p" }

/-- Witness for C9 at the concrete profile update. -/
theorem syncDriver_minimal_patch_witness :
    (onUserWriteSyncDriver "user9" (some userBeforeC9) (some userC9) (some driverDocC9)
        = DriverAction.noWrite
      ↔ profilePatch userC9 driverDocC9 = [])
    ∧ (∀ ups,
        onUserWriteSyncDriver "user9" (some userBeforeC9) (some userC9) (some driverDocC9)
          = DriverAction.patch ups →
        ∀ kv, kv ∈ ups →
          (kv.1 = "name" ∧ userC9.name = some kv.2 ∧ kv.2 ≠ ""
            ∧ kv.2 ≠ driverDocC9.name)
          ∨ (kv.1 = "email" ∧ userC9.email = some kv.2 ∧ kv.2 ≠ ""
            ∧ kv.2 ≠ driverDocC9.email)
          ∨ (kv.1 = "phone" ∧ userC9.phone = some kv.2 ∧ kv.2 ≠ ""
            ∧ kv.2 ≠ driverDocC9.phone)) :=
  syncDriver_minimal_patch "user9" (some userBeforeC9) userC9 driverDocC9 rfl

/-- C6: a health-check run never emits an alert identifier recorded in
the history less than 30 minutes earlier (and appends no history record
for it), even when its rule's condition currently holds; and when every
history record of the identifier is older than 30 minutes, a run whose
condition produces the alert emits it again. -/
theorem healthCheck_dedup_window (s : HSnap) (hist : List HistEntry) (a : Alert)
    (ha : a ∈ computeAlerts s) :
    ((∃ e, e ∈ hist ∧ e.alertId = a.id ∧ 0 ≤ s.now - e.sentAt ∧ s.now - e.sentAt < 1800000) →
        (∀ b, b ∈ (healthCheckRun s hist).1 → b.id ≠ a.id)
        ∧ (healthCheckRun s hist).2.filter (fun e => e.alertId == a.id)
            = hist.filter (fun e => e.alertId == a.id))
    ∧ ((∀ e, e ∈ hist → e.alertId = a.id → 1800000 < s.now - e.sentAt) →
        ∃ b, b ∈ (healthCheckRun s hist).1 ∧ b.id = a.id) := by
  have hae : (computeAlerts s).isEmpty = false := by
    simpa [List.isEmpty_iff] using List.ne_nil_of_mem ha
  constructor
  · rintro ⟨e, he, hid, h0, hlt⟩
    have hmem : a.id ∈ recentAlertIds s.now hist := by
      simp only [recentAlertIds, List.mem_map]
      refine ⟨e, List.mem_filter.mpr ⟨he, ?_⟩, hid⟩
      simp only [decide_eq_true_eq]
      omega
    have hnotnew : ∀ b, b ∈ newAlertsOf s hist → b.id ≠ a.id := by
      intro b hb hbid
      have hfb := (List.mem_filter.mp hb).2
      rw [hbid] at hfb
      simp [hmem] at hfb
    by_cases hnew : (newAlertsOf s hist).isEmpty
    · constructor
      · intro b hb
        simp [healthCheckRun, hae, hnew] at hb
      · simp [healthCheckRun, hae, hnew]
    · constructor
      · intro b hb
        have hb' : b ∈ newAlertsOf s hist := by
          simpa [healthCheckRun, hae, hnew] using hb
        exact hnotnew b hb'
      · have h2 : (healthCheckRun s hist).2
            = hist ++ (newAlertsOf s hist).map (histEntryOf s.now) := by
          simp [healthCheckRun, hae, hnew]
        rw [h2, List.filter_append]
        have hmapnil : ((newAlertsOf s hist).map (histEntryOf s.now)).filter
            (fun e => e.alertId == a.id) = [] := by
          refine List.filter_eq_nil_iff.mpr ?_
          intro x hx
          obtain ⟨b, hb, rfl⟩ := List.mem_map.mp hx
          simpa [histEntryOf] using hnotnew b hb
        rw [hmapnil, List.append_nil]
  · intro hold
    have hnot : a.id ∉ recentAlertIds s.now hist := by
      intro hmem
      simp only [recentAlertIds, List.mem_map] at hmem
      obtain ⟨e, hef, hid⟩ := hmem
      obtain ⟨he, hsent⟩ := List.mem_filter.mp hef
      have h1 := hold e he hid
      simp only [decide_eq_true_eq] at hsent
      omega
    have hanew : a ∈ newAlertsOf s hist := by
      refine List.mem_filter.mpr ⟨ha, ?_⟩
      simp [hnot]
    have hnewne : (newAlertsOf s hist).isEmpty = false := by
      simpa [List.isEmpty_iff] using List.ne_nil_of_mem hanew
    refine ⟨a, ?_, rfl⟩
    simpa [healthCheckRun, hae, hnewne] using hanew

/-- A snapshot with 11 open disputes and one online driver: the scan
produces exactly the `high-disputes` critical alert. -/
def snapC6 : HSnap :=
  { drivers := [{ status := "online" }], openDisputes := 11, pendingVerifications := 0,
    orders := [], users := [], now := 10000000, currentHour := 10, todayStart := 0 }

/-- The `high-disputes` alert produced by `snapC6`. -/
def alertC6 : Alert :=
  { id := "high-disputes", severity := "critical", title := "Trop de litiges ouverts",
    message := "11 litiges ouverts nécessitent une attention immédiate.", team := "support" }

/-- A history record of `high-disputes` sent 10 minutes before `snapC6.now`. -/
def histEntryC6 : HistEntry :=
  { alertId := "high-disputes", severity := "critical", title := "t", message := "m",
    team := "support", sentAt := 9400000 }

/-- The alert history containing only the 10-minute-old record. -/
def histC6recent : List HistEntry := [histEntryC6]

/-- An alert history whose only `high-disputes` record is 33 minutes old. -/
def histC6old : List HistEntry := [{ histEntryC6 with sentAt := 8000000 }]

/-- Witness for C6: the 10-minute-old record suppresses the alert and
keeps its history untouched; the 33-minute-old record lets it fire. -/
theorem healthCheck_dedup_window_witness :
    ((∀ b, b ∈ (healthCheckRun snapC6 histC6recent).1 → b.id ≠ alertC6.id)
      ∧ (healthCheckRun snapC6 histC6recent).2.filter (fun e => e.alertId == alertC6.id)
          = histC6recent.filter (fun e => e.alertId == alertC6.id))
    ∧ (∃ b, b ∈ (healthCheckRun snapC6 histC6old).1 ∧ b.id = alertC6.id) :=
  ⟨(healthCheck_dedup_window snapC6 histC6recent alertC6 (by decide)).1
      ⟨histEntryC6, by decide, rfl, by decide, by decide⟩,
   (healthCheck_dedup_window snapC6 histC6old alertC6 (by decide)).2 (by decide)⟩

/-- C7: with zero delivered orders, the metrics push emits
`greendrop.orders.on_time_rate` with value exactly 100 — the rate
computation takes the guarded branch and never divides by the delivered
count. -/
theorem on_time_rate_zero_delivered (orders : List OrderDoc) (now todayStart : Int)
    (h : deliveredCount orders = 0) :
    ({ name := "greendrop.orders.on_time_rate", value := 100, interval := 300,
        time := now } : MetricSample) ∈ ordersSectionMetrics orders now todayStart
    ∧ onTimeRate orders = 100 := by
  have hr : onTimeRate orders = 100 := by
    simp [onTimeRate, h]
  refine ⟨?_, hr⟩
  simp [ordersSectionMetrics, hr]

/-- An orders collection with a single shipped (not delivered) order. -/
def ordersC7 : List OrderDoc :=
  [{ status := some "shipped", createdAt := 0, totalAmount := some 10, deliveredAt := none,
     estimatedDelivery := none, shippedAt := none, updatedAt := none }]

/-- Witness for C7 on the concrete orders collection. -/
theorem on_time_rate_zero_delivered_witness :
    ({ name := "greendrop.orders.on_time_rate", value := 100, interval := 300,
        time := 5 } : MetricSample) ∈ ordersSectionMetrics ordersC7 5 0
    ∧ onTimeRate ordersC7 = 100 :=
  on_time_rate_zero_delivered ordersC7 5 0 (by decide)

/-- C10: `healthCheck` returns `null` rather than propagating an
exception, whatever the collaborator outcomes: the webhook and push
helpers swallow their own errors, any other failure is caught by the
outer handler — and a store-read failure leaves the error in the log. -/
theorem healthCheck_never_throws :
    (∀ env : HCEnv, (healthCheck env).1 = Except.ok none)
    ∧ (∀ u f, (sendDiscordAlerts u f).1 = Except.ok ())
    ∧ (∀ t p, (sendAdminPush t p).1 = Except.ok ())
    ∧ (∀ env : HCEnv, ∀ e,
        ("[HealthCheck] Error: " ++ e)
          ∈ (healthCheck { env with reads := Except.error e }).2) := by
  have hdis : ∀ u f, (sendDiscordAlerts u f).1 = Except.ok () := by
    intro u f
    cases u with
    | none => rfl
    | some w =>
      cases f with
      | error e => rfl
      | ok b => cases b <;> rfl
  have hpush : ∀ t p, (sendAdminPush t p).1 = Except.ok () := by
    intro t p
    cases t with
    | error e => rfl
    | ok tokens =>
      by_cases htk : tokens.isEmpty
      · simp [sendAdminPush, htk]
      · cases p with
        | error e => simp [sendAdminPush, htk]
        | ok _ => simp [sendAdminPush, htk]
  have hbody : ∀ env : HCEnv, (healthCheckBody env).1 = Except.ok none
      ∨ ∃ e, (healthCheckBody env).1 = Except.error e := by
    intro env
    unfold healthCheckBody
    cases henv : env.reads with
    | error e => exact Or.inr ⟨e, rfl⟩
    | ok pr =>
      obtain ⟨s, hist⟩ := pr
      by_cases hal : (computeAlerts s).isEmpty
      · simp [hal]
      · by_cases hnw : (healthCheckRun s hist).1.isEmpty
        · simp [hal, hnw]
        · have hal' : (computeAlerts s).isEmpty = false := by simpa using hal
          have hnw' : (healthCheckRun s hist).1.isEmpty = false := by simpa using hnw
          cases hcm : env.commit with
          | error e =>
            refine Or.inr ⟨e, ?_⟩
            simp [hal', hnw', hdis, hcm]
          | ok u =>
            refine Or.inl ?_
            simp [hal', hnw', hdis, hpush, hcm]
  refine ⟨?_, hdis, hpush, ?_⟩
  · intro env
    unfold healthCheck
    rcases hb : healthCheckBody env with ⟨r, logs⟩
    rcases hbody env with h | ⟨e, h⟩ <;> rw [hb] at h <;> simp only at h <;> subst h <;> rfl
  · intro env e
    simp [healthCheck, healthCheckBody]

/-- Membership through `insertByScore`: the inserted list holds the new
candidate and the old members, nothing else. -/
lemma mem_of_mem_insertByScore {x c : MatchCandidate} {l : List MatchCandidate}
    (h : x ∈ insertByScore c l) : x = c ∨ x ∈ l := by
  induction l with
  | nil => simpa [insertByScore] using h
  | cons y ys ih =>
    by_cases hc : y.score ≤ c.score
    · rw [insertByScore, if_pos hc] at h
      simpa using h
    · rw [insertByScore, if_neg hc] at h
      rcases List.mem_cons.mp h with h1 | h2
      · exact Or.inr (List.mem_cons.mpr (Or.inl h1))
      · rcases ih h2 with h3 | h4
        · exact Or.inl h3
        · exact Or.inr (List.mem_cons.mpr (Or.inr h4))

/-- Sorting by descending score introduces no new candidates. -/
lemma mem_of_mem_sortByScoreDesc {x : MatchCandidate} {l : List MatchCandidate}
    (h : x ∈ sortByScoreDesc l) : x ∈ l := by
  induction l with
  | nil => simpa [sortByScoreDesc] using h
  | cons y ys ih =>
    rw [sortByScoreDesc] at h
    rcases mem_of_mem_insertByScore h with h1 | h2
    · exact List.mem_cons.mpr (Or.inl h1)
    · exact List.mem_cons.mpr (Or.inr (ih h2))

/-- C8: every candidate returned by `findBestDrivers` lies within the
10 km service radius — drivers farther away are discarded before
ranking, whatever distance function GeoScorer provides. -/
theorem findBestDrivers_within_radius (dist : ℚ → ℚ → ℚ → ℚ → ℚ)
    (pickupLat pickupLng : ℚ) (drivers : List MatchDriver) (now : Int) (maxResults : Nat)
    (c : MatchCandidate)
    (hc : c ∈ findBestDrivers dist pickupLat pickupLng drivers now maxResults) :
    c.distance ≤ 10 := by
  simp only [findBestDrivers] at hc
  have h1 := mem_of_mem_sortByScoreDesc (List.take_subset _ _ hc)
  obtain ⟨d, hd, hfd⟩ := List.mem_filterMap.mp h1
  cases hl : d.location with
  | none => rw [hl] at hfd; simp at hfd
  | some p =>
    obtain ⟨lat, lng⟩ := p
    rw [hl] at hfd
    simp only at hfd
    by_cases h10 : 10 < dist pickupLat pickupLng lat lng
    · rw [if_pos h10] at hfd
      exact absurd hfd (by simp)
    · rw [if_neg h10] at hfd
      by_cases htr : truthy d.currentOrderId = true
      · rw [if_pos htr] at hfd
        exact absurd hfd (by simp)
      · rw [if_neg htr] at hfd
        rw [Option.some_inj] at hfd
        rw [← hfd]
        exact le_of_not_lt h10

/-- An online, unoccupied driver with a location near the C8 pickup. -/
def mDriverC8 : MatchDriver :=
  { id := "d1", name := "N", phone := "p", status := "online", rating := some 4,
    completedDeliveries := 10, currentOrderId := none, lastSeenAt := 0,
    location := some (1, 2) }

/-- A concrete rectilinear distance function standing in for the
haversine. -/
def distC8 : ℚ → ℚ → ℚ → ℚ → ℚ :=
  fun aLat aLng bLat bLng => |aLat - bLat| + |aLng - bLng|

/-- The candidate `findBestDrivers` produces for `mDriverC8`. -/
def candC8 : MatchCandidate :=
  { driver := mDriverC8, distance := distC8 1 3 1 2,
    score := scoreCandidate (distC8 1 3 1 2) (some 4) 10 0 0 }

/-- Witness for C8 at the concrete matching invocation. -/
theorem findBestDrivers_within_radius_witness : candC8.distance ≤ 10 :=
  findBestDrivers_within_radius distC8 1 3 [mDriverC8] 0 5 candC8 (by
    have h10 : ¬(10 < distC8 1 3 1 2) := by
      simp [distC8]
      norm_num
    simp [findBestDrivers, mDriverC8, candC8, truthy, sortByScoreDesc, insertByScore, h10])

end GreenDrop
